import Mathlib

/-!
Shallow embedding of the `stepper` module of `astro-pico`
(`src/stepper/mod.rs`): a ULN2003 stepper-motor driver with a 9-state
half-step table, forward/reverse traversal, and a controller over four
fallible GPIO output pins.

Pin levels are the two-valued `PinState` from `embedded_hal`; the four
physical pins and the opaque possibility that a write to a pin fails are
made explicit: the controller state carries the current level of each
pin, and a `FaultModel` records, for each pin, whether writes to it fail.
Each fallible operation returns the updated controller together with
`Option StepError`, mirroring Rust's in-place mutation plus
`Result<(), StepError>` return value (mutations performed before an early
`?`-return remain visible in the returned controller).
-/

namespace AstroPico

/-- Pin level, as in `embedded_hal::digital::PinState`. -/
inductive PinState
  | Low
  | High
deriving DecidableEq, Fintype, Repr

/-- Direction the motor turns in (`Direction` in `stepper/mod.rs`):
`Normal` is the default (the spec's Forward), `Reverse` the reversed one. -/
inductive Direction
  | Normal
  | Reverse
deriving DecidableEq, Fintype, Repr

/-- The nine motor positions (`State` in `stepper/mod.rs`). -/
inductive State
  | State0
  | State1
  | State2
  | State3
  | State4
  | State5
  | State6
  | State7
  | State8
deriving DecidableEq, Fintype, Repr

open PinState State

/-- `get_pin_states`: the fixed lookup table from state to the levels of
the four driver pins (gpio2, gpio3, gpio4, gpio5), embedded from the
`match` in `stepper/mod.rs` lines 35-47. -/
def get_pin_states (s : State) : PinState × PinState × PinState × PinState :=
  match s with
  | State0 => (Low, Low, Low, Low)
  | State1 => (Low, Low, Low, High)
  | State2 => (Low, Low, High, High)
  | State3 => (Low, Low, High, Low)
  | State4 => (Low, High, High, Low)
  | State5 => (Low, High, Low, Low)
  | State6 => (High, High, Low, Low)
  | State7 => (High, Low, Low, Low)
  | State8 => (High, Low, Low, High)

/-- `get_next_state`: forward traversal of the cycle
(`stepper/mod.rs` lines 49-61). -/
def get_next_state (s : State) : State :=
  match s with
  | State0 => State1
  | State1 => State2
  | State2 => State3
  | State3 => State4
  | State4 => State5
  | State5 => State6
  | State6 => State7
  | State7 => State8
  | State8 => State1

/-- `get_prev_state`: reverse traversal of the cycle
(`stepper/mod.rs` lines 63-75). -/
def get_prev_state (s : State) : State :=
  match s with
  | State0 => State8
  | State1 => State8
  | State2 => State1
  | State3 => State2
  | State4 => State3
  | State5 => State4
  | State6 => State5
  | State7 => State6
  | State8 => State7

/-- The unit error type `StepError` returned when a pin write fails. -/
structure StepError where
deriving DecidableEq, Repr

/-- Current levels of the four driver pins (gpio2..gpio5 of `ULN2003`). -/
structure Pins where
  gpio2 : PinState
  gpio3 : PinState
  gpio4 : PinState
  gpio5 : PinState
deriving DecidableEq, Repr

/-- Environment model of the opaque, platform-specific possibility that a
write to a given physical pin fails: one flag per pin, true meaning
writes to that pin return an error. -/
structure FaultModel where
  gpio2Fails : Bool
  gpio3Fails : Bool
  gpio4Fails : Bool
  gpio5Fails : Bool
deriving DecidableEq, Repr

/-- The fault environment in which every pin write succeeds. -/
def noFaults : FaultModel := ⟨false, false, false, false⟩

/-- The `ULN2003` controller struct: the four owned pins (represented by
their current levels), the current `state` and the direction `dir`. -/
structure ULN2003 where
  pins : Pins
  state : State
  dir : Direction
deriving DecidableEq, Repr

/-- `ULN2003::new`: a fresh controller from the four pin handles, with
state `State0` and direction `Normal` (`stepper/mod.rs` lines 96-105). -/
def ULN2003.new (gpio2 gpio3 gpio4 gpio5 : PinState) : ULN2003 :=
  { pins := ⟨gpio2, gpio3, gpio4, gpio5⟩, state := State0, dir := Direction.Normal }

/-- The free function `set_state`: attempts to drive one pin to `level`;
under the fault model a failing pin leaves its level unchanged and the
call returns `StepError` (`stepper/mod.rs` lines 117-125). -/
def set_state (fails : Bool) (level : PinState) : Except StepError PinState :=
  if fails then Except.error ⟨⟩ else Except.ok level

/-- `ULN2003::apply_state`: looks up the pattern of the current state and
writes the four levels in order gpio2, gpio3, gpio4, gpio5, stopping at
the first failing write and propagating `StepError`
(`stepper/mod.rs` lines 107-114). -/
def apply_state (f : FaultModel) (m : ULN2003) : ULN2003 × Option StepError :=
  let states := get_pin_states m.state
  match set_state f.gpio2Fails states.1 with
  | Except.error e => (m, some e)
  | Except.ok p2 =>
    let m2 := { m with pins := { m.pins with gpio2 := p2 } }
    match set_state f.gpio3Fails states.2.1 with
    | Except.error e => (m2, some e)
    | Except.ok p3 =>
      let m3 := { m2 with pins := { m2.pins with gpio3 := p3 } }
      match set_state f.gpio4Fails states.2.2.1 with
      | Except.error e => (m3, some e)
      | Except.ok p4 =>
        let m4 := { m3 with pins := { m3.pins with gpio4 := p4 } }
        match set_state f.gpio5Fails states.2.2.2 with
        | Except.error e => (m4, some e)
        | Except.ok p5 =>
          ({ m4 with pins := { m4.pins with gpio5 := p5 } }, none)

/-- `StepperMotor::step` for `ULN2003`: first advance `state` along the
current direction, then apply the new state's pin pattern
(`stepper/mod.rs` lines 128-135). -/
def step (f : FaultModel) (m : ULN2003) : ULN2003 × Option StepError :=
  let m1 :=
    match m.dir with
    | Direction.Normal => { m with state := get_next_state m.state }
    | Direction.Reverse => { m with state := get_prev_state m.state }
  apply_state f m1

/-- `StepperMotor::set_direction` for `ULN2003`: assigns the direction
field (`stepper/mod.rs` lines 137-139). -/
def set_direction (d : Direction) (m : ULN2003) : ULN2003 :=
  { m with dir := d }

/-- `StepperMotor::stop` for `ULN2003`: writes `Low` to the four pins in
order gpio2, gpio3, gpio4, gpio5, stopping at the first failing write
(`stepper/mod.rs` lines 141-147). -/
def stop (f : FaultModel) (m : ULN2003) : ULN2003 × Option StepError :=
  match set_state f.gpio2Fails Low with
  | Except.error e => (m, some e)
  | Except.ok p2 =>
    let m2 := { m with pins := { m.pins with gpio2 := p2 } }
    match set_state f.gpio3Fails Low with
    | Except.error e => (m2, some e)
    | Except.ok p3 =>
      let m3 := { m2 with pins := { m2.pins with gpio3 := p3 } }
      match set_state f.gpio4Fails Low with
      | Except.error e => (m3, some e)
      | Except.ok p4 =>
        let m4 := { m3 with pins := { m3.pins with gpio4 := p4 } }
        match set_state f.gpio5Fails Low with
        | Except.error e => (m4, some e)
        | Except.ok p5 =>
          ({ m4 with pins := { m4.pins with gpio5 := p5 } }, none)

/-- Numeric rendering of a pin level (Low as 0, High as 1), used to state
the table claims with the spec's 0/1 tuples. -/
def levelBit (p : PinState) : Nat :=
  match p with
  | Low => 0
  | High => 1

/-- Numeric rendering of a 4-tuple of pin levels. -/
def patternBits (q : PinState × PinState × PinState × PinState) :
    Nat × Nat × Nat × Nat :=
  (levelBit q.1, levelBit q.2.1, levelBit q.2.2.1, levelBit q.2.2.2)

/-- Number of positions at which two 4-tuples of pin levels differ. -/
def diffCount (q r : PinState × PinState × PinState × PinState) : Nat :=
  (if q.1 = r.1 then 0 else 1) + (if q.2.1 = r.2.1 then 0 else 1) +
    (if q.2.2.1 = r.2.2.1 then 0 else 1) + (if q.2.2.2 = r.2.2.2 then 0 else 1)

/-- The state reached from `s` by `n` applications of `get_next_state`. -/
def iterNext : Nat → State → State
  | 0, s => s
  | n + 1, s => iterNext n (get_next_state s)

/-- The list of states visited by 8 forward steps starting at `s`
(the states reached after 1, 2, ..., 8 applications of
`get_next_state`). -/
def visited (s : State) : List State :=
  (List.range 8).map (fun k => iterNext (k + 1) s)

/-- The state that `step` stores: the successor of `s` under `Normal`
(Forward) direction, the predecessor under `Reverse`, mirroring the
`match self.dir` at the top of `step`. -/
def dirTarget (d : Direction) (s : State) : State :=
  match d with
  | Direction.Normal => get_next_state s
  | Direction.Reverse => get_prev_state s

/-- One controller-level operation of the public interface, together with
the fault environment of its pin writes. -/
inductive Op
  | opStep (f : FaultModel)
  | opSetDir (d : Direction)
  | opStop (f : FaultModel)

/-- Execute one operation, keeping the updated controller. -/
def runOp (m : ULN2003) : Op → ULN2003
  | Op.opStep f => (step f m).1
  | Op.opSetDir d => set_direction d m
  | Op.opStop f => (stop f m).1

/-- Execute a sequence of operations from `m`. -/
def run (m : ULN2003) : List Op → ULN2003
  | [] => m
  | op :: ops => run (runOp m op) ops

/-- Whether a sequence of operations contains at least one `step` call. -/
def hasStep : List Op → Bool
  | [] => false
  | Op.opStep _ :: _ => true
  | _ :: ops => hasStep ops

/-- C1: `get_pin_states` maps each of the 9 motor states to exactly the
4-tuple of pin levels (A,B,C,D) tabulated in the spec, for every state,
with no error case (the function is total by construction). -/
theorem pattern_matches_table :
    ∀ s : State, patternBits (get_pin_states s) =
      match s with
      | State0 => (0, 0, 0, 0)
      | State1 => (0, 0, 0, 1)
      | State2 => (0, 0, 1, 1)
      | State3 => (0, 0, 1, 0)
      | State4 => (0, 1, 1, 0)
      | State5 => (0, 1, 0, 0)
      | State6 => (1, 1, 0, 0)
      | State7 => (1, 0, 0, 0)
      | State8 => (1, 0, 0, 1) := by decide

/-- C2: `get_next_state` maps states 1..7 to the next higher number,
state 8 to state 1 and state 0 to state 1; `get_prev_state` maps states
2..8 to the next lower number, state 1 to state 8 and state 0 to
state 8. Both are total over the 9-value state space (by construction)
and never fail. -/
theorem next_prev_tables :
    (∀ s : State, get_next_state s =
      match s with
      | State0 => State1
      | State1 => State2
      | State2 => State3
      | State3 => State4
      | State4 => State5
      | State5 => State6
      | State6 => State7
      | State7 => State8
      | State8 => State1) ∧
    (∀ s : State, get_prev_state s =
      match s with
      | State0 => State8
      | State1 => State8
      | State2 => State1
      | State3 => State2
      | State4 => State3
      | State5 => State4
      | State6 => State5
      | State7 => State6
      | State8 => State7) := by decide

/-- C3: for every controller state and direction, `step` first stores the
successor (`Normal`/Forward) or predecessor (`Reverse`) of the current
state as the new current state, then writes the new state's 4 pin levels
in order gpio2 (A), gpio3 (B), gpio4 (C), gpio5 (D); it returns
`StepError` if and only if some pin write fails, in which case writes
stop at the first failing pin — pins not yet written keep their prior
level — while the stored state has already been advanced. -/
theorem step_spec :
    ∀ (p1 p2 p3 p4 : PinState) (s : State) (d : Direction) (f1 f2 f3 f4 : Bool),
      ((step ⟨f1, f2, f3, f4⟩ ⟨⟨p1, p2, p3, p4⟩, s, d⟩).1.state = dirTarget d s) ∧
      ((step ⟨f1, f2, f3, f4⟩ ⟨⟨p1, p2, p3, p4⟩, s, d⟩).1.dir = d) ∧
      ((step ⟨f1, f2, f3, f4⟩ ⟨⟨p1, p2, p3, p4⟩, s, d⟩).2.isSome =
        (f1 || f2 || f3 || f4)) ∧
      ((step ⟨f1, f2, f3, f4⟩ ⟨⟨p1, p2, p3, p4⟩, s, d⟩).1.pins.gpio2 =
        if f1 then p1 else (get_pin_states (dirTarget d s)).1) ∧
      ((step ⟨f1, f2, f3, f4⟩ ⟨⟨p1, p2, p3, p4⟩, s, d⟩).1.pins.gpio3 =
        if f1 || f2 then p2 else (get_pin_states (dirTarget d s)).2.1) ∧
      ((step ⟨f1, f2, f3, f4⟩ ⟨⟨p1, p2, p3, p4⟩, s, d⟩).1.pins.gpio4 =
        if f1 || f2 || f3 then p3 else (get_pin_states (dirTarget d s)).2.2.1) ∧
      ((step ⟨f1, f2, f3, f4⟩ ⟨⟨p1, p2, p3, p4⟩, s, d⟩).1.pins.gpio5 =
        if f1 || f2 || f3 || f4 then p4 else (get_pin_states (dirTarget d s)).2.2.2) := by
  decide

/-- C4: for every controller state and direction, `stop` writes `Low` to
the 4 pins in the fixed order gpio2 (A), gpio3 (B), gpio4 (C), gpio5 (D)
and leaves both the stored current state and the stored direction
unchanged, so a `step` after `stop` advances from the pre-stop state,
not from state 0; on a pin write failure `stop` returns `StepError` and
does not attempt the remaining pins (they keep their prior level). -/
theorem stop_spec :
    ∀ (p1 p2 p3 p4 : PinState) (s : State) (d : Direction) (f1 f2 f3 f4 : Bool),
      ((stop ⟨f1, f2, f3, f4⟩ ⟨⟨p1, p2, p3, p4⟩, s, d⟩).1.state = s) ∧
      ((stop ⟨f1, f2, f3, f4⟩ ⟨⟨p1, p2, p3, p4⟩, s, d⟩).1.dir = d) ∧
      ((stop ⟨f1, f2, f3, f4⟩ ⟨⟨p1, p2, p3, p4⟩, s, d⟩).2.isSome =
        (f1 || f2 || f3 || f4)) ∧
      ((stop ⟨f1, f2, f3, f4⟩ ⟨⟨p1, p2, p3, p4⟩, s, d⟩).1.pins.gpio2 =
        if f1 then p1 else PinState.Low) ∧
      ((stop ⟨f1, f2, f3, f4⟩ ⟨⟨p1, p2, p3, p4⟩, s, d⟩).1.pins.gpio3 =
        if f1 || f2 then p2 else PinState.Low) ∧
      ((stop ⟨f1, f2, f3, f4⟩ ⟨⟨p1, p2, p3, p4⟩, s, d⟩).1.pins.gpio4 =
        if f1 || f2 || f3 then p3 else PinState.Low) ∧
      ((stop ⟨f1, f2, f3, f4⟩ ⟨⟨p1, p2, p3, p4⟩, s, d⟩).1.pins.gpio5 =
        if f1 || f2 || f3 || f4 then p4 else PinState.Low) ∧
      ((step noFaults (stop ⟨f1, f2, f3, f4⟩ ⟨⟨p1, p2, p3, p4⟩, s, d⟩).1).1.state =
        dirTarget d s) := by
  decide

/-- C5: a freshly constructed controller has current state 0 and
direction `Normal` (Forward); a first fault-free `step` writes pin
levels pattern(1) = (Low,Low,Low,High) and sets the current state to 1,
and a first fault-free `step` after `set_direction Reverse` writes pin
levels pattern(8) = (High,Low,Low,High) and sets the current state
to 8. -/
theorem new_first_step_spec :
    ∀ (p1 p2 p3 p4 : PinState),
      ((ULN2003.new p1 p2 p3 p4).state = State0) ∧
      ((ULN2003.new p1 p2 p3 p4).dir = Direction.Normal) ∧
      (step noFaults (ULN2003.new p1 p2 p3 p4) =
        (⟨⟨PinState.Low, PinState.Low, PinState.Low, PinState.High⟩,
          State1, Direction.Normal⟩, none)) ∧
      (step noFaults (set_direction Direction.Reverse (ULN2003.new p1 p2 p3 p4)) =
        (⟨⟨PinState.High, PinState.Low, PinState.Low, PinState.High⟩,
          State8, Direction.Reverse⟩, none)) := by
  decide

/-- C6: for every state s in {1..8}, `get_prev_state (get_next_state s) = s`
and `get_next_state (get_prev_state s) = s`: the successor and
predecessor functions are mutually inverse on the cycle states. -/
theorem next_prev_inverse :
    ∀ s : State, s ≠ State0 →
      get_prev_state (get_next_state s) = s ∧
      get_next_state (get_prev_state s) = s := by
  decide

/-- Witness for C6 at the concrete state 1. -/
theorem next_prev_inverse_witness :
    State1 ≠ State0 ∧
      (get_prev_state (get_next_state State1) = State1 ∧
       get_next_state (get_prev_state State1) = State1) :=
  ⟨by decide, next_prev_inverse State1 (by decide)⟩

/-- C7: `get_next_state` restricted to {1..8} is a single 8-cycle: from
every state s in {1..8}, 8 applications return to s, and the 8 states
visited along the way are pairwise distinct and are exactly the set
{1..8} (state 0 is never visited). -/
theorem next_eight_cycle :
    ∀ s : State, s ≠ State0 →
      iterNext 8 s = s ∧
      (visited s).Nodup ∧
      State0 ∉ visited s ∧
      (∀ t : State, t ≠ State0 → t ∈ visited s) := by
  decide

/-- Witness for C7 at the concrete state 1, itself instantiating the
inner quantifier at state 5. -/
theorem next_eight_cycle_witness :
    State1 ≠ State0 ∧
      (iterNext 8 State1 = State1 ∧ (visited State1).Nodup ∧
        State0 ∉ visited State1 ∧ State5 ∈ visited State1) := by
  refine ⟨by decide, ?_⟩
  have h := next_eight_cycle State1 (by decide)
  exact ⟨h.1, h.2.1, h.2.2.1, h.2.2.2 State5 (by decide)⟩

/-- C8: for every controller state, `set_direction d` only assigns the
stored direction: it performs no pin write and cannot fail (it returns
the updated controller with no error channel), and it leaves the stored
current state and all four pin levels unchanged. -/
theorem set_direction_spec :
    ∀ (p1 p2 p3 p4 : PinState) (s : State) (d0 d : Direction),
      set_direction d ⟨⟨p1, p2, p3, p4⟩, s, d0⟩ = ⟨⟨p1, p2, p3, p4⟩, s, d⟩ := by
  decide

/-- Applying the state pattern never changes the stored state field. -/
theorem apply_state_state (f : FaultModel) (m : ULN2003) :
    (apply_state f m).1.state = m.state := by
  rcases f with ⟨f1, f2, f3, f4⟩
  cases f1 <;> cases f2 <;> cases f3 <;> cases f4 <;> rfl

/-- The state stored by `step` is the direction-dependent target of the
previous state, regardless of pin write failures. -/
theorem step_state (f : FaultModel) (m : ULN2003) :
    (step f m).1.state = dirTarget m.dir m.state := by
  rcases m with ⟨p, s, d⟩
  cases d <;> simp [step, dirTarget, apply_state_state]

/-- `stop` never changes the stored state field. -/
theorem stop_state (f : FaultModel) (m : ULN2003) :
    (stop f m).1.state = m.state := by
  rcases f with ⟨f1, f2, f3, f4⟩
  cases f1 <;> cases f2 <;> cases f3 <;> cases f4 <;> rfl

/-- Neither the successor nor the predecessor of any state is state 0. -/
theorem dirTarget_ne_state0 : ∀ (d : Direction) (s : State),
    dirTarget d s ≠ State0 := by
  decide

/-- Running any sequence of operations from a controller whose state is
in {1..8} keeps the state in {1..8}. -/
theorem run_preserves_ne_state0 (ops : List Op) :
    ∀ m : ULN2003, m.state ≠ State0 → (run m ops).state ≠ State0 := by
  induction ops with
  | nil => exact fun m h => h
  | cons op ops ih =>
    intro m h
    cases op with
    | opStep f =>
      exact ih _ (by rw [show runOp m (Op.opStep f) = (step f m).1 from rfl,
        step_state]; exact dirTarget_ne_state0 _ _)
    | opSetDir d => exact ih _ h
    | opStop f =>
      exact ih _ (by rw [show runOp m (Op.opStop f) = (stop f m).1 from rfl,
        stop_state]; exact h)

/-- C9: state 0 is never re-entered once left: for every controller and
every sequence of `step`, `set_direction` and `stop` calls containing at
least one `step` (under arbitrary fault environments), the final stored
state is in {1..8} — neither `get_next_state` nor `get_prev_state` ever
returns state 0 and no operation resets the state to 0. Applied to a
freshly constructed controller, this says the state stays in {1..8}
after the first `step`. -/
theorem state0_never_reentered :
    ∀ (ops : List Op) (m : ULN2003), hasStep ops = true →
      (run m ops).state ≠ State0 := by
  intro ops
  induction ops with
  | nil => intro m h; simp [hasStep] at h
  | cons op ops ih =>
    intro m h
    cases op with
    | opStep f =>
      exact run_preserves_ne_state0 ops _
        (by rw [show runOp m (Op.opStep f) = (step f m).1 from rfl, step_state]
            exact dirTarget_ne_state0 _ _)
    | opSetDir d => exact ih _ (by simpa [hasStep] using h)
    | opStop f => exact ih _ (by simpa [hasStep] using h)

/-- Witness for C9: a single fault-free `step` from a fresh controller
leaves the state away from state 0. -/
theorem state0_never_reentered_witness :
    hasStep [Op.opStep noFaults] = true ∧
      (run (ULN2003.new PinState.Low PinState.Low PinState.Low PinState.Low)
        [Op.opStep noFaults]).state ≠ State0 :=
  ⟨rfl, state0_never_reentered [Op.opStep noFaults]
    (ULN2003.new PinState.Low PinState.Low PinState.Low PinState.Low) rfl⟩

/-- C10: the cycle is a half-step (Gray-code-like) sequence: for every
state s in {1..8}, the pin pattern of the successor of s differs from
the pattern of s in exactly one of the four pin positions. -/
theorem step_toggles_one_pin :
    ∀ s : State, s ≠ State0 →
      diffCount (get_pin_states s) (get_pin_states (get_next_state s)) = 1 := by
  decide

/-- Witness for C10 at the concrete state 1. -/
theorem step_toggles_one_pin_witness :
    State1 ≠ State0 ∧
      diffCount (get_pin_states State1) (get_pin_states (get_next_state State1)) = 1 :=
  ⟨by decide, step_toggles_one_pin State1 (by decide)⟩

end AstroPico
